import Mathlib

/-!
Shallow embedding of a Next.js PDF-to-Markdown conversion app.

The repository has two parts:
* `src/app/api/convert/route.ts` — a server-side proxy with a `POST` handler
  (upload a PDF to the Mathpix service) and a `GET` handler (poll the Mathpix
  job status).
* a client page (`HomePage`) that uploads the file, stores the returned job
  identifier, and polls the status endpoint every 5 seconds, deriving the
  displayed markdown from the final payload.

JavaScript runtime values are modelled explicitly: `Option` models
`undefined`/missing values, `JsValue` models the result of `JSON.parse`,
and the JS truthiness / nullish-coalescing operators are modelled by
dedicated functions.
-/

/-- A JSON runtime value, the result of a successful `JSON.parse`.
`null` is a genuine value (relevant because the JS nullish-coalescing
operator `??` treats it like `undefined`). -/
inductive JsValue where
  | null
  | bool (b : Bool)
  | num (n : Int)
  | str (s : String)
  | arr (elems : List JsValue)
  | obj (fields : List (String × JsValue))

/-- JS nullish coalescing `v ?? fb` applied to a parsed JSON value:
`JSON.parse` never yields `undefined`, so only `null` selects the fallback. -/
def jsCoalesce (v fb : JsValue) : JsValue :=
  match v with
  | .null => fb
  | _ => v

/-- JS truthiness of a `string | undefined` value: `undefined` and the empty
string are falsy. -/
def jsTruthyStr : Option String → Bool
  | none => false
  | some s => !(s == "")

/-- JS falsiness of a `string | undefined` value (the `!x` test). -/
def jsFalsyStr (x : Option String) : Bool := !(jsTruthyStr x)

/-- JS `a ?? b` on `string | undefined` values: `b` is chosen only when `a`
is `undefined`; an empty string is kept. -/
def jsNullishStr (a b : Option String) : Option String :=
  match a with
  | some s => some s
  | none => b

/-- JS `a || b` on `string | undefined` values: `b` is chosen when `a` is
falsy, i.e. `undefined` or the empty string. -/
def jsOrStr (a b : Option String) : Option String :=
  if jsTruthyStr a then a else b

/-! ## Server proxy: `src/app/api/convert/route.ts` -/

/-- The server environment: `process.env.MATHPIX_APP_ID` and
`process.env.MATHPIX_APP_KEY`, each `string | undefined`. -/
structure Env where
  appId : Option String
  appKey : Option String

/-- Error message thrown by `getCredentialHeader` when a credential is
missing or empty. -/
def credsMissingMsg : String :=
  "Mathpix credentials are missing. Set MATHPIX_APP_ID and MATHPIX_APP_KEY env vars."

/-- `getCredentialHeader()`: throws (modelled as `Except.error` carrying the
error message) when either credential is falsy, otherwise returns the pair. -/
def getCredentialHeader (env : Env) : Except String (String × String) :=
  if jsFalsyStr env.appId || jsFalsyStr env.appKey then .error credsMissingMsg
  else .ok (env.appId.getD "", env.appKey.getD "")

/-- Both credentials are configured and non-empty (the condition under which
`getCredentialHeader` succeeds). -/
def credsPresent (env : Env) : Bool :=
  !(jsFalsyStr env.appId) && !(jsFalsyStr env.appKey)

/-- The upstream (Mathpix) HTTP response as the proxy observes it:
the status code, the raw body text, and the result of `JSON.parse` on that
text (`none` when parsing throws, e.g. on an empty body). -/
structure UpstreamResponse where
  status : Nat
  text : String
  parseResult : Option JsValue

/-- `response.ok` of the Fetch API: status in the range 200–299. -/
def statusOk (s : Nat) : Bool := 200 ≤ s && s < 300

/-- The JS variable `parsed`: `JSON.parse(text)` on success, the raw `text`
string when parsing throws. -/
def parsedBody (u : UpstreamResponse) : JsValue :=
  match u.parseResult with
  | some v => v
  | none => .str u.text

/-- An HTTP response produced by a proxy handler (`NextResponse.json`):
status code and JSON body. -/
structure HttpResponse where
  status : Nat
  body : JsValue

/-- `{ error: msg }` — the JSON error body the handlers build. -/
def errorBody (msg : String) : JsValue := .obj [("error", .str msg)]

/-- A handler outcome: the HTTP response returned to the client together
with whether an outbound call to the Mathpix endpoint was attempted. -/
structure HandlerOutcome where
  response : HttpResponse
  outboundCall : Bool

/-- Outcome of `forwardToMathpix`: either a thrown error message or the
upstream response, plus whether the `fetch` was attempted. -/
structure ForwardOutcome where
  result : Except String UpstreamResponse
  attemptedCall : Bool

/-- `forwardToMathpix(arrayBuffer)`: reads the credentials (throwing when
they are missing) and only then performs the outbound `fetch`.  The fetch
outcome (network error or upstream response) is an input of the model. -/
def forwardToMathpix (env : Env) (fetchResult : Except String UpstreamResponse) :
    ForwardOutcome :=
  match getCredentialHeader env with
  | .error msg => { result := .error msg, attemptedCall := false }
  | .ok _ => { result := fetchResult, attemptedCall := true }

/-- The value `formData.get("file")` in the `POST` handler: absent (`null`),
a plain string entry (not a `Blob`), or a `Blob` carrying its declared media
type (`file.type`, the empty string when undeclared). -/
inductive FormFile where
  | missing
  | stringEntry (s : String)
  | blob (type : String)

/-- The `POST` handler of `src/app/api/convert/route.ts`.
`formData` is the result of `request.formData()` (`Except.error` models a
thrown parse exception); `fetchResult` is the outcome the network would
deliver if the outbound call is made.  Every thrown exception is caught and
converted to a 500 response with body `{ error: message }`. -/
def POST (env : Env) (formData : Except String FormFile)
    (fetchResult : Except String UpstreamResponse) : HandlerOutcome :=
  match formData with
  | .error msg =>
      { response := { status := 500, body := errorBody msg }, outboundCall := false }
  | .ok file =>
    match file with
    | .missing =>
        { response := { status := 400, body := errorBody "Missing PDF file payload." },
          outboundCall := false }
    | .stringEntry _ =>
        { response := { status := 400, body := errorBody "Missing PDF file payload." },
          outboundCall := false }
    | .blob ty =>
      if (ty != "") && (ty != "application/pdf") then
        { response := { status := 400,
                        body := errorBody "Only application/pdf uploads are supported." },
          outboundCall := false }
      else
        let fwd := forwardToMathpix env fetchResult
        match fwd.result with
        | .error msg =>
            { response := { status := 500, body := errorBody msg },
              outboundCall := fwd.attemptedCall }
        | .ok u =>
          if !(statusOk u.status) then
            { response := { status := u.status,
                            body := jsCoalesce (parsedBody u)
                              (errorBody "Mathpix rejected the request.") },
              outboundCall := fwd.attemptedCall }
          else
            { response := { status := 200,
                            body := jsCoalesce (parsedBody u)
                              (.obj [("success", .bool true)]) },
              outboundCall := fwd.attemptedCall }

/-- The `GET` handler of `src/app/api/convert/route.ts`.
`jobId` is `searchParams.get("jobId")` (`none` when the parameter is
absent); note the credential check runs before the `jobId` check. -/
def GET (env : Env) (jobId : Option String)
    (fetchResult : Except String UpstreamResponse) : HandlerOutcome :=
  match getCredentialHeader env with
  | .error msg =>
      { response := { status := 500, body := errorBody msg }, outboundCall := false }
  | .ok _ =>
    if jsFalsyStr jobId then
      { response := { status := 400, body := errorBody "jobId query parameter is required." },
        outboundCall := false }
    else
      match fetchResult with
      | .error msg =>
          { response := { status := 500, body := errorBody msg }, outboundCall := true }
      | .ok u =>
        if !(statusOk u.status) then
          { response := { status := u.status,
                          body := jsCoalesce (parsedBody u)
                            (errorBody ("Mathpix status lookup failed with "
                              ++ toString u.status ++ ".")) },
            outboundCall := true }
        else
          { response := { status := 200, body := jsCoalesce (parsedBody u) (.obj []) },
            outboundCall := true }

/-! ## Client page: `HomePage` (src/unnamed/part_000) -/

/-- The `PdfJobStatus` payload the client receives from the status endpoint.
Every field that the client reads through optional chaining or that the
service may omit is an `Option`; `dataValue` models `payload.data?.value`
(absent when `data` is absent or has no `value`). -/
structure PdfJobStatus where
  job_id : Option String := none
  status : Option String := none
  num_pages : Option Nat := none
  pages_processed : Option Nat := none
  error : Option String := none
  dataValue : Option String := none
  markdown : Option String := none
  html : Option String := none
  text : Option String := none

/-- The client state touched by polling: the `status`, `markdown`, `error`
and `rawResponse` React state variables. -/
structure ClientState where
  status : Option PdfJobStatus := none
  markdown : String := ""
  error : Option String := none
  rawResponse : Option PdfJobStatus := none

/-- The displayed markdown derived on completion:
`payload.data?.value ?? payload.markdown ?? payload.html ?? payload.text ?? ""`. -/
def derivedMarkdown (p : PdfJobStatus) : String :=
  (jsNullishStr p.dataValue
    (jsNullishStr p.markdown (jsNullishStr p.html p.text))).getD ""

/-- `payload.error || default` — the error message shown on a failed
conversion (`||`, so an empty-string `error` falls back to the default). -/
def jsOrDefault (x : Option String) (d : String) : String :=
  match x with
  | some s => if s == "" then d else s
  | none => d

/-- What one invocation of the `poll` closure observes: the `fetch` itself
threw, the response had a non-ok HTTP status (the code then throws
`Polling failed: <status>` before the ignore-check), or an ok response with
a parsed `PdfJobStatus` payload. -/
inductive PollResult where
  | networkError (msg : String)
  | httpError (status : Nat)
  | payload (p : PdfJobStatus)

/-- One invocation of the `poll` closure: given the `ignore` flag, the
current client state and the observed result, it returns the new client
state and whether a next poll is scheduled (`setTimeout(poll, ...)`).
Thrown errors reach the `catch` block, which updates `error` only when
`ignore` is still false; a payload is processed only after the
`if (ignore) return` guard. -/
def pollStep (ignore : Bool) (st : ClientState) (r : PollResult) :
    ClientState × Bool :=
  match r with
  | .networkError msg =>
      (if ignore then st else { st with error := some msg }, false)
  | .httpError s =>
      (if ignore then st
       else { st with error := some ("Polling failed: " ++ toString s) }, false)
  | .payload p =>
    if ignore then (st, false)
    else
      let st1 := { st with status := some p, rawResponse := some p }
      let completionState := p.status.map String.toLower
      if completionState = some "completed" then
        ({ st1 with markdown := derivedMarkdown p }, false)
      else if completionState = some "error" ∨ completionState = some "failed" then
        ({ st1 with error := some (jsOrDefault p.error
            "Conversion failed. Check Mathpix dashboard for details.") }, false)
      else
        (st1, true)

/-- The mutable bookkeeping of the polling `useEffect`: the `ignore` flag
and whether a `setTimeout` poll is currently pending. -/
structure PollSession where
  ignore : Bool
  timerPending : Bool

/-- Running the polling effect for a fresh job identifier:
`ignore = false` and an initial poll is scheduled. -/
def effectSetup : PollSession := { ignore := false, timerPending := true }

/-- The effect cleanup run when the job identifier is torn down (changed or
the component unmounts): sets `ignore = true` and clears the pending
timer (`clearTimeout`). -/
def effectCleanup (_s : PollSession) : PollSession :=
  { ignore := true, timerPending := false }

/-- The `progress` memo: 0 when `num_pages` or `pages_processed` is falsy
(absent or 0), else `Math.min(pages_processed / num_pages, 1)`.  Computed
over ℚ; page counts are naturals. -/
def progress (st : Option PdfJobStatus) : ℚ :=
  match st with
  | none => 0
  | some s =>
    if s.num_pages.getD 0 = 0 ∨ s.pages_processed.getD 0 = 0 then 0
    else if s.num_pages = some 0 then 0
    else min ((s.pages_processed.getD 0 : ℚ) / (s.num_pages.getD 0 : ℚ)) 1

/-- The identifier-bearing fields of a successful upload response, as read
by `handleSubmit`: `payload.job_id || payload.id || payload.pdf_id`. -/
structure UploadPayload where
  job_id : Option String := none
  id : Option String := none
  pdf_id : Option String := none

/-- `payload.job_id || payload.id || payload.pdf_id`. -/
def extractJobId (p : UploadPayload) : Option String :=
  jsOrStr p.job_id (jsOrStr p.id p.pdf_id)

/-- Where `handleSubmit` lands after a successful upload response:
polling with a job id, or failed with an error message. -/
inductive SubmitResult where
  | failed (errorMsg : String)
  | polling (jobId : String)

/-- Processing of a successful upload response in `handleSubmit`:
`if (!newJobId) throw new Error(...)` — the thrown error is caught and
shown via `setError` (the failed state); otherwise `setJobId(newJobId)`
starts polling. -/
def processUploadPayload (p : UploadPayload) : SubmitResult :=
  let newJobId := extractJobId p
  if jsTruthyStr newJobId then .polling (newJobId.getD "")
  else .failed "Upload succeeded but no job id returned by Mathpix."

/-! ## Spec-side definitions (for refinement comparison only)

These two definitions follow the words of the specification, not the code;
they exist to be compared with `derivedMarkdown` and `extractJobId`. -/

/-- The first non-empty string in a list of optional fields, skipping both
absent fields and fields holding the empty string; `""` when none. -/
def firstNonEmptyField : List (Option String) → String
  | [] => ""
  | none :: rest => firstNonEmptyField rest
  | some s :: rest => if s == "" then firstNonEmptyField rest else s

/-- The displayed markdown as the spec words it: the first non-empty field
among `data.value`, `markdown`, `html`, `text` — an empty-string field is
skipped in favour of the next candidate. -/
def specDisplayedMarkdown (p : PdfJobStatus) : String :=
  firstNonEmptyField [p.dataValue, p.markdown, p.html, p.text]

/-- The job identifier as the spec words it: the first *present* field among
`job_id`, `id`, `pdf_id` (present meaning not absent, even if empty). -/
def specExtractJobId (p : UploadPayload) : Option String :=
  jsNullishStr p.job_id (jsNullishStr p.id p.pdf_id)

/-- The first non-empty string in a list of optional fields, `none` when
every field is absent or empty (used to restate the job-id extraction). -/
def firstNonEmptyOpt : List (Option String) → Option String
  | [] => none
  | none :: rest => firstNonEmptyOpt rest
  | some s :: rest => if s == "" then firstNonEmptyOpt rest else some s

/-! ## Helper lemmas -/

/-- When both credentials are present, the credential guard condition of
`getCredentialHeader` is false. -/
theorem creds_cond_false (env : Env) (h : credsPresent env = true) :
    (jsFalsyStr env.appId || jsFalsyStr env.appKey) = false := by
  revert h; unfold credsPresent
  cases jsFalsyStr env.appId <;> cases jsFalsyStr env.appKey <;> simp

/-- When some credential is missing, the credential guard condition of
`getCredentialHeader` is true. -/
theorem creds_cond_true (env : Env) (h : credsPresent env = false) :
    (jsFalsyStr env.appId || jsFalsyStr env.appKey) = true := by
  revert h; unfold credsPresent
  cases jsFalsyStr env.appId <;> cases jsFalsyStr env.appKey <;> simp

/-- With both credentials configured, `getCredentialHeader` succeeds. -/
theorem getCredentialHeader_of_creds (env : Env) (h : credsPresent env = true) :
    getCredentialHeader env = .ok (env.appId.getD "", env.appKey.getD "") := by
  simp [getCredentialHeader, creds_cond_false env h]

/-- With a credential missing, `getCredentialHeader` throws its message. -/
theorem getCredentialHeader_of_no_creds (env : Env) (h : credsPresent env = false) :
    getCredentialHeader env = .error credsMissingMsg := by
  simp [getCredentialHeader, creds_cond_true env h]

/-- A non-empty job identifier passes the `if (!jobId)` guard. -/
theorem jsFalsyStr_some_ne (jid : String) (h : jid ≠ "") :
    jsFalsyStr (some jid) = false := by
  simp [jsFalsyStr, jsTruthyStr, h]

/-- `v ?? fb` keeps `v` whenever `v` is not JSON `null`. -/
theorem jsCoalesce_of_ne_null (v fb : JsValue) (h : v ≠ .null) :
    jsCoalesce v fb = v := by
  cases v with
  | null => exact absurd rfl h
  | _ => rfl

/-- The nullish-coalescing chain of `derivedMarkdown` returns the first
*present* field (not the first non-empty one). -/
theorem derivedMarkdown_eq_firstPresent (p : PdfJobStatus) :
    derivedMarkdown p = ([p.dataValue, p.markdown, p.html, p.text].filterMap id).headD "" := by
  cases hd : p.dataValue <;> cases hm : p.markdown <;> cases hh : p.html <;>
    cases ht : p.text <;>
      simp [derivedMarkdown, jsNullishStr, hd, hm, hh, ht]

/-! ## Claims -/

/-- Claim C2: for every polling session, tearing down the tracked job
identifier cancels any pending scheduled poll (`clearTimeout` after
`ignore := true`), and a poll result that arrives with `ignore` set mutates
no client state (status, markdown, error, rawResponse) and schedules no
further poll. -/
theorem poll_teardown_safe :
    (∀ s : PollSession,
      (effectCleanup s).ignore = true ∧ (effectCleanup s).timerPending = false) ∧
    (∀ (st : ClientState) (r : PollResult), pollStep true st r = (st, false)) := by
  refine ⟨fun s => ⟨rfl, rfl⟩, fun st r => ?_⟩
  cases r <;> rfl

/-- Claim C8: an upload whose form data has no file payload (the `file`
entry is absent or is not a `Blob`) receives a 400 response with an error
body, and no outbound call is made — for every environment and every
would-be network outcome. -/
theorem upload_missing_file_rejected :
    (∀ (env : Env) (f : Except String UpstreamResponse),
      POST env (.ok .missing) f =
        { response := { status := 400, body := errorBody "Missing PDF file payload." },
          outboundCall := false }) ∧
    (∀ (env : Env) (f : Except String UpstreamResponse) (s : String),
      POST env (.ok (.stringEntry s)) f =
        { response := { status := 400, body := errorBody "Missing PDF file payload." },
          outboundCall := false }) := by
  exact ⟨fun env f => rfl, fun env f s => rfl⟩

/-- Claim C9: an upload whose file declares a non-empty media type other
than `application/pdf` receives a 400 response and no outbound call is
made; a payload with no declared media type (empty `file.type`) is not
rejected on this ground — with credentials configured it reaches the
outbound call. -/
theorem upload_bad_media_type_rejected :
    (∀ (env : Env) (f : Except String UpstreamResponse) (ty : String),
      ty ≠ "" → ty ≠ "application/pdf" →
      POST env (.ok (.blob ty)) f =
        { response := { status := 400,
                        body := errorBody "Only application/pdf uploads are supported." },
          outboundCall := false }) ∧
    (∀ (env : Env) (f : Except String UpstreamResponse),
      credsPresent env = true → (POST env (.ok (.blob "")) f).outboundCall = true) := by
  constructor
  · intro env f ty h1 h2
    simp only [POST]
    rw [if_pos]
    simp [h1, h2]
  · intro env f hc
    simp only [POST, forwardToMathpix, getCredentialHeader_of_creds env hc]
    cases f with
    | error msg => rfl
    | ok u => by_cases hs : statusOk u.status <;> simp [hs]

/-- Claim C9 witness: a `text/plain` upload is rejected with 400 and no
outbound call; an upload with an undeclared media type reaches the
outbound call. -/
theorem upload_bad_media_type_rejected_witness :
    (POST { appId := some "id", appKey := some "key" } (.ok (.blob "text/plain"))
        (.error "network down") =
      { response := { status := 400,
                      body := errorBody "Only application/pdf uploads are supported." },
        outboundCall := false }) ∧
    (POST { appId := some "id", appKey := some "key" } (.ok (.blob ""))
        (.error "network down")).outboundCall = true :=
  ⟨upload_bad_media_type_rejected.1 _ _ _ (by decide) (by decide),
   upload_bad_media_type_rejected.2 _ _ (by decide)⟩

/-- Claim C10: both proxy handlers are total functions of their inputs
(they always return an HTTP response), and every exceptional path — a
thrown form-data parse error, missing credentials, or a failed outbound
call — is converted into a 500 response with body `{ error: message }`. -/
theorem handlers_total_exceptions_500 :
    (∀ (env : Env) (msg : String) (f : Except String UpstreamResponse),
      POST env (.error msg) f =
        { response := { status := 500, body := errorBody msg }, outboundCall := false }) ∧
    (∀ (env : Env) (f : Except String UpstreamResponse),
      credsPresent env = false →
      POST env (.ok (.blob "application/pdf")) f =
        { response := { status := 500, body := errorBody credsMissingMsg },
          outboundCall := false }) ∧
    (∀ (env : Env) (msg : String),
      credsPresent env = true →
      POST env (.ok (.blob "application/pdf")) (.error msg) =
        { response := { status := 500, body := errorBody msg }, outboundCall := true }) ∧
    (∀ (env : Env) (jid : Option String) (f : Except String UpstreamResponse),
      credsPresent env = false →
      GET env jid f =
        { response := { status := 500, body := errorBody credsMissingMsg },
          outboundCall := false }) ∧
    (∀ (env : Env) (jid : String) (msg : String),
      credsPresent env = true → jid ≠ "" →
      GET env (some jid) (.error msg) =
        { response := { status := 500, body := errorBody msg }, outboundCall := true }) := by
  refine ⟨fun env msg f => rfl, ?_, ?_, ?_, ?_⟩
  · intro env f hc
    simp [POST, forwardToMathpix, getCredentialHeader_of_no_creds env hc]
  · intro env msg hc
    simp [POST, forwardToMathpix, getCredentialHeader_of_creds env hc]
  · intro env jid f hc
    simp [GET, getCredentialHeader_of_no_creds env hc]
  · intro env jid msg hc hj
    simp [GET, getCredentialHeader_of_creds env hc, jsFalsyStr_some_ne jid hj]

/-- Claim C10 witness: concrete exceptional paths of both handlers yield
500 responses with `{ error: message }` bodies. -/
theorem handlers_total_exceptions_500_witness :
    (POST { appId := some "id", appKey := some "key" } (.error "boom") (.error "net") =
      { response := { status := 500, body := errorBody "boom" }, outboundCall := false }) ∧
    (POST { appId := none, appKey := some "key" } (.ok (.blob "application/pdf"))
        (.error "net") =
      { response := { status := 500, body := errorBody credsMissingMsg },
        outboundCall := false }) ∧
    (POST { appId := some "id", appKey := some "key" } (.ok (.blob "application/pdf"))
        (.error "fetch failed") =
      { response := { status := 500, body := errorBody "fetch failed" },
        outboundCall := true }) ∧
    (GET { appId := none, appKey := some "key" } (some "job-1") (.error "net") =
      { response := { status := 500, body := errorBody credsMissingMsg },
        outboundCall := false }) ∧
    (GET { appId := some "id", appKey := some "key" } (some "job-1") (.error "fetch failed") =
      { response := { status := 500, body := errorBody "fetch failed" },
        outboundCall := true }) :=
  ⟨handlers_total_exceptions_500.1 _ _ _,
   handlers_total_exceptions_500.2.1 _ _ (by decide),
   handlers_total_exceptions_500.2.2.1 _ _ (by decide),
   handlers_total_exceptions_500.2.2.2.1 _ _ _ (by decide),
   handlers_total_exceptions_500.2.2.2.2 _ _ _ (by decide) (by decide)⟩

/-- Claim C5: the progress fraction always lies in [0, 1]; for `numPages`
> 0 it equals `pagesProcessed / numPages` clamped to [0, 1], and it is 0
whenever `numPages` is 0 or absent. -/
theorem progress_in_unit_interval :
    (∀ st : Option PdfJobStatus, 0 ≤ progress st ∧ progress st ≤ 1) ∧
    (∀ n p : Nat, 0 < n →
      progress (some { num_pages := some n, pages_processed := some p }) =
        max 0 (min ((p : ℚ) / (n : ℚ)) 1)) ∧
    (∀ s : PdfJobStatus, s.num_pages = none ∨ s.num_pages = some 0 →
      progress (some s) = 0) := by
  refine ⟨?_, ?_, ?_⟩
  · intro st
    cases st with
    | none => exact ⟨le_refl 0, by norm_num [progress]⟩
    | some s =>
      simp only [progress]
      split_ifs with h1 h2
      · exact ⟨le_refl 0, by norm_num⟩
      · exact ⟨le_refl 0, by norm_num⟩
      · exact ⟨le_min (by positivity) (by norm_num), min_le_right _ _⟩
  · intro n p hn
    have hn0 : n ≠ 0 := ne_of_gt hn
    rcases Nat.eq_zero_or_pos p with hp | hp
    · subst hp
      simp [progress]
    · have hp0 : p ≠ 0 := ne_of_gt hp
      simp only [progress, Option.getD_some, hn0, hp0, or_self, if_false,
        Option.some.injEq]
      exact (max_eq_right (le_min (by positivity) (by norm_num))).symm
  · intro s h
    simp only [progress]
    rcases h with h | h <;> simp [h]

/-- Claim C5 witness: with 4 pages of which 3 processed, progress is the
clamped ratio 3/4; with 0 total pages, progress is 0. -/
theorem progress_in_unit_interval_witness :
    (progress (some { num_pages := some 4, pages_processed := some 3 }) =
      max 0 (min ((3 : ℚ) / (4 : ℚ)) 1)) ∧
    progress (some { num_pages := some 0, pages_processed := some 3 }) = 0 :=
  ⟨progress_in_unit_interval.2.1 4 3 (by norm_num),
   progress_in_unit_interval.2.2 _ (Or.inr rfl)⟩

/-- Claim C3 (counterexample): with the Mathpix credentials unset, a status
request with the job identifier absent is answered with 500 — a server
error, not the client error the claim promises for every environment
(the credential check precedes the jobId check in the `GET` handler). -/
theorem status_missing_jobid_counterexample :
    (GET { appId := none, appKey := none } none (.error "network down")).response.status
        = 500 ∧
    ¬(400 ≤ (GET { appId := none, appKey := none } none
          (.error "network down")).response.status ∧
      (GET { appId := none, appKey := none } none
          (.error "network down")).response.status < 500) := by
  exact ⟨rfl, by decide⟩

/-- Claim C3 (amended): if the credentials are configured, a status request
whose job identifier is absent returns 400 and makes no outbound call; if a
credential is missing, the request returns 500 instead — and still makes no
outbound call. -/
theorem status_missing_jobid_rejected (env : Env) (f : Except String UpstreamResponse) :
    (credsPresent env = true →
      GET env none f =
        { response := { status := 400,
                        body := errorBody "jobId query parameter is required." },
          outboundCall := false }) ∧
    (credsPresent env = false →
      GET env none f =
        { response := { status := 500, body := errorBody credsMissingMsg },
          outboundCall := false }) := by
  constructor
  · intro hc
    simp [GET, getCredentialHeader_of_creds env hc, jsFalsyStr, jsTruthyStr]
  · intro hc
    simp [GET, getCredentialHeader_of_no_creds env hc]

/-- Claim C3 witness: both branches at concrete environments. -/
theorem status_missing_jobid_rejected_witness :
    (GET { appId := some "id", appKey := some "key" } none (.error "net") =
      { response := { status := 400,
                      body := errorBody "jobId query parameter is required." },
        outboundCall := false }) ∧
    (GET { appId := none, appKey := none } none (.error "net") =
      { response := { status := 500, body := errorBody credsMissingMsg },
        outboundCall := false }) :=
  ⟨(status_missing_jobid_rejected _ _).1 (by decide),
   (status_missing_jobid_rejected _ _).2 (by decide)⟩

/-- Claim C4 (counterexample): an upstream 404 with an *empty* body is
relayed as the empty string, not as the generic fallback message — because
`JSON.parse("")` throws, `parsed` becomes the raw text `""`, which is not
nullish, so `parsed ?? fallback` keeps it.  This refutes the claim that the
fallback is substituted whenever the upstream body is empty. -/
theorem status_error_fallback_counterexample :
    (GET { appId := some "id", appKey := some "key" } (some "job-1")
        (.ok { status := 404, text := "", parseResult := none })).response.status = 404 ∧
    (GET { appId := some "id", appKey := some "key" } (some "job-1")
        (.ok { status := 404, text := "", parseResult := none })).response.body
      = JsValue.str "" ∧
    JsValue.str "" ≠ errorBody "Mathpix status lookup failed with 404." := by
  refine ⟨rfl, rfl, fun h => ?_⟩
  exact JsValue.noConfusion h

/-- Claim C4 (amended): on an upstream non-2xx status the Status Proxy
relays the upstream status code, and the body is the parsed upstream body;
the generic fallback message is substituted if and only if the upstream
body parses to JSON `null` — an empty or unparseable body is relayed as its
raw text, not replaced by the fallback. -/
theorem status_error_passthrough (env : Env) (jid : String) (u : UpstreamResponse)
    (hc : credsPresent env = true) (hj : jid ≠ "") (hs : statusOk u.status = false) :
    (GET env (some jid) (.ok u)).response.status = u.status ∧
    (GET env (some jid) (.ok u)).outboundCall = true ∧
    (u.parseResult = some JsValue.null →
      (GET env (some jid) (.ok u)).response.body =
        errorBody ("Mathpix status lookup failed with " ++ toString u.status ++ ".")) ∧
    (∀ j : JsValue, u.parseResult = some j → j ≠ JsValue.null →
      (GET env (some jid) (.ok u)).response.body = j) ∧
    (u.parseResult = none →
      (GET env (some jid) (.ok u)).response.body = JsValue.str u.text) := by
  have hG : GET env (some jid) (.ok u) =
      { response := { status := u.status,
                      body := jsCoalesce (parsedBody u)
                        (errorBody ("Mathpix status lookup failed with "
                          ++ toString u.status ++ ".")) },
        outboundCall := true } := by
    simp [GET, getCredentialHeader_of_creds env hc, jsFalsyStr_some_ne jid hj, hs]
  rw [hG]
  refine ⟨rfl, rfl, ?_, ?_, ?_⟩
  · intro hp
    simp [parsedBody, hp, jsCoalesce]
  · intro j hp hj0
    simp [parsedBody, hp, jsCoalesce_of_ne_null _ _ hj0]
  · intro hp
    have hne : JsValue.str u.text ≠ JsValue.null := fun h => JsValue.noConfusion h
    simp [parsedBody, hp, jsCoalesce_of_ne_null _ _ hne]

/-- Claim C4 witness: an upstream 503 whose body is the JSON literal
`null` receives the fallback message; the status is relayed. -/
theorem status_error_passthrough_witness :
    (GET { appId := some "id", appKey := some "key" } (some "job-1")
      (.ok { status := 503, text := "null", parseResult := some JsValue.null })).response.status
      = 503 ∧
    (GET { appId := some "id", appKey := some "key" } (some "job-1")
      (.ok { status := 503, text := "null", parseResult := some JsValue.null })).response.body
      = errorBody ("Mathpix status lookup failed with " ++ toString (503 : Nat) ++ ".") :=
  ⟨(status_error_passthrough { appId := some "id", appKey := some "key" } "job-1"
      { status := 503, text := "null", parseResult := some JsValue.null }
      (by decide) (by decide) (by decide)).1,
   (status_error_passthrough { appId := some "id", appKey := some "key" } "job-1"
      { status := 503, text := "null", parseResult := some JsValue.null }
      (by decide) (by decide) (by decide)).2.2.1 rfl⟩

/-- Claim C7 (counterexample): an upstream 401 whose JSON body is the JSON
literal `null` is relayed with status 401 but with the generic rejection
object substituted for the body — so "a JSON body is passed through
unchanged" fails for the JSON value `null` (the one JSON value that is
nullish in JS). -/
theorem upload_error_passthrough_counterexample :
    (POST { appId := some "id", appKey := some "key" } (.ok (.blob "application/pdf"))
      (.ok { status := 401, text := "null", parseResult := some JsValue.null })).response.status
      = 401 ∧
    (POST { appId := some "id", appKey := some "key" } (.ok (.blob "application/pdf"))
      (.ok { status := 401, text := "null", parseResult := some JsValue.null })).response.body
      = errorBody "Mathpix rejected the request." ∧
    errorBody "Mathpix rejected the request." ≠ JsValue.null := by
  refine ⟨rfl, rfl, fun h => ?_⟩
  exact JsValue.noConfusion h

/-- Claim C7 (amended): on an upstream non-2xx status the Upload Proxy
relays the upstream status code with the JSON body unchanged, except when
that body is the JSON literal `null`, where a generic rejection object is
substituted; in particular an upstream 401 with a JSON object error body
yields a 401 carrying that body. -/
theorem upload_error_passthrough (env : Env) (ty : String) (u : UpstreamResponse)
    (j : JsValue) (hc : credsPresent env = true)
    (hty : ty = "" ∨ ty = "application/pdf") (hs : statusOk u.status = false)
    (hp : u.parseResult = some j) (hj : j ≠ JsValue.null) :
    POST env (.ok (.blob ty)) (.ok u) =
      { response := { status := u.status, body := j }, outboundCall := true } := by
  have hcond : ((ty != "") && (ty != "application/pdf")) = false := by
    rcases hty with h | h <;> subst h <;> rfl
  simp [POST, hcond, forwardToMathpix, getCredentialHeader_of_creds env hc, hs,
    parsedBody, hp, jsCoalesce_of_ne_null _ _ hj]

/-- Claim C7 witness: an upstream 401 with a JSON object error body is
relayed as a 401 carrying that body unchanged. -/
theorem upload_error_passthrough_witness :
    POST { appId := some "id", appKey := some "key" } (.ok (.blob "application/pdf"))
        (.ok { status := 401, text := "x",
               parseResult := some (.obj [("error", .str "unauthorized")]) }) =
      { response := { status := 401, body := .obj [("error", .str "unauthorized")] },
        outboundCall := true } :=
  upload_error_passthrough _ _ _ _ (by decide) (Or.inr rfl) (by decide) rfl
    (fun h => JsValue.noConfusion h)

/-- Lowercasing the literal `"completed"` is the identity (needed because
`String.toLower` does not reduce definitionally). -/
theorem toLower_completed : String.toLower "completed" = "completed" := by
  have h : String.toLower "completed" = String.map Char.toLower "completed" := rfl
  rw [h, String.map_eq]
  decide

/-- Claim C1 (counterexample): a completed payload whose structured value
field holds the *empty string* is displayed as the empty string — the
nullish-coalescing chain keeps an empty string instead of skipping to the
non-empty `markdown` field, refuting "a field holding the empty string is
skipped in favour of the next candidate". -/
theorem completed_markdown_counterexample :
    (pollStep false {}
      (.payload { status := some "completed", dataValue := some "",
                  markdown := some "# Result" })).1.markdown = "" ∧
    specDisplayedMarkdown { status := some "completed", dataValue := some "",
                            markdown := some "# Result" } = "# Result" ∧
    ("" : String) ≠ "# Result" := by
  refine ⟨?_, rfl, by decide⟩
  simp [pollStep, toLower_completed, derivedMarkdown, jsNullishStr]

/-- Claim C1 (amended): when a poll payload's status, lowercased, equals
"completed", the poller transitions to the completed state (the payload is
stored, no further poll is scheduled, the error state is untouched) and the
displayed markdown is the first *present* field among the structured value
field, the markdown field, the html field and the text field — a present
field holding the empty string is displayed as the empty string, not
skipped — and the empty string when all four are absent. -/
theorem completed_markdown_first_present (st : ClientState) (p : PdfJobStatus)
    (h : p.status.map String.toLower = some "completed") :
    (pollStep false st (.payload p)).2 = false ∧
    (pollStep false st (.payload p)).1.status = some p ∧
    (pollStep false st (.payload p)).1.rawResponse = some p ∧
    (pollStep false st (.payload p)).1.error = st.error ∧
    (pollStep false st (.payload p)).1.markdown =
      ([p.dataValue, p.markdown, p.html, p.text].filterMap id).headD "" := by
  have hstep : pollStep false st (.payload p) =
      ({ st with status := some p, rawResponse := some p,
                 markdown := derivedMarkdown p }, false) := by
    simp [pollStep, h]
  rw [hstep]
  exact ⟨rfl, rfl, rfl, rfl, derivedMarkdown_eq_firstPresent p⟩

/-- Claim C1 witness: a completed payload carrying `data.value = "# Result"`
ends polling with displayed markdown `"# Result"` and no further poll. -/
theorem completed_markdown_first_present_witness :
    (pollStep false {}
      (.payload { status := some "completed",
                  dataValue := some "# Result" })).2 = false ∧
    (pollStep false {}
      (.payload { status := some "completed",
                  dataValue := some "# Result" })).1.markdown =
      ([some "# Result", none, none, none].filterMap id).headD "" :=
  ⟨(completed_markdown_first_present {}
      { status := some "completed", dataValue := some "# Result" }
      (by simp [toLower_completed])).1,
   (completed_markdown_first_present {}
      { status := some "completed", dataValue := some "# Result" }
      (by simp [toLower_completed])).2.2.2.2⟩

/-- Claim C6 (counterexample): an upload response with `job_id = ""` and
`id = "abc"` starts polling with job id `"abc"` — the `||` chain skips the
present-but-empty `job_id`, refuting "taking the first present" field. -/
theorem job_id_extraction_counterexample :
    processUploadPayload { job_id := some "", id := some "abc" } =
      .polling "abc" ∧
    specExtractJobId { job_id := some "", id := some "abc" } = some "" ∧
    ("abc" : String) ≠ "" := by
  refine ⟨rfl, rfl, by decide⟩

/-- Claim C6 (amended): on a successful upload response the job identifier
is the first *non-empty* field among `job_id`, `id`, `pdf_id` (a field
holding the empty string is skipped); if every field is absent or empty,
the state machine transitions to failed with the "no job id returned"
error message. -/
theorem job_id_extraction_first_nonempty (p : UploadPayload) :
    processUploadPayload p =
      match firstNonEmptyOpt [p.job_id, p.id, p.pdf_id] with
      | none => .failed "Upload succeeded but no job id returned by Mathpix."
      | some j => .polling j := by
  rcases p with ⟨a, b, c⟩
  cases a <;> cases b <;> cases c <;>
    simp only [processUploadPayload, extractJobId, jsOrStr, jsTruthyStr,
      firstNonEmptyOpt] <;>
    split_ifs <;> simp_all [firstNonEmptyOpt]
